import Mathlib

/-!
Shallow embedding of the OrcaSync Git synchronization engine
(`src/orcasync/git_ops.py`, class `GitManager`) and verification of the
specification's claims about it.

Modelling conventions:
* A file tree is a list of (relative path segments, file content) pairs,
  one entry per regular file.
* The managed subtree root (`<repo>/<target_subdir>`, default `profiles`)
  is an association list from subtree leaf name to the file tree stored
  under that name; directory existence is tracked by an explicit flag.
* Backend (GitPython) behaviour that the engine merely orchestrates —
  whether a clone, rebase pull, merge pull or push command succeeds, and
  with which error message it fails — is supplied as oracle fields of an
  environment structure.  The engine's control flow over those outcomes is
  translated from the Python source.
* Python truthiness of strings (`if not message:`, `if self.repo_url:`) is
  modelled by comparison with the empty string; truthiness of lists
  (`self.repo.untracked_files`) by a Bool.
-/

namespace OrcaSync

/-- Helper for substring containment: does `pat` occur in the character list? -/
def containsAux (pat : List Char) : List Char → Bool
  | [] => pat.isEmpty
  | c :: rest => pat.isPrefixOf (c :: rest) || containsAux pat rest

/-- Model of `pat in s` on Python strings: substring containment. -/
def containsSubstr (s pat : String) : Bool :=
  containsAux pat.toList s.toList

/-- Python `str.lower()`, character by character (the backend error
messages the code lowercases are ASCII). -/
def pyLower (s : String) : String :=
  String.mk (s.data.map Char.toLower)

/-- A directory tree: the regular files it contains, each as
(path segments relative to the tree root, content). -/
abbrev FileTree := List (List String × String)

/-- An external source directory passed to `sync_files`: its leaf name
(`source_path.name`) and its contents, `none` when the path does not exist. -/
structure SourceDir where
  name : String
  tree : Option FileTree
deriving DecidableEq, Repr

/-- An external destination directory passed to `restore_files`: its leaf name
(`target_path.name`) and its current contents (`none` when it does not exist). -/
structure DestDir where
  name : String
  existing : Option FileTree
deriving DecidableEq, Repr

/-- The managed subtree root `<repo>/<target_subdir>`: subtree leaf name →
stored file tree. -/
abbrev ManagedRoot := List (String × FileTree)

/-- The part of the repository working tree the tree synchronizer touches:
whether the managed subtree root directory exists, and its contents. -/
structure RepoFS where
  profilesExists : Bool
  profiles : ManagedRoot
deriving DecidableEq, Repr

/-- Errors raised by the engine (`GitSyncError` instances, distinguished by
the message the code attaches, plus the error taxonomy of the spec). -/
inductive GitError where
  | notInitialized
  | noRemote
  | cloneFailed (msg : String)
  | authFailed
  | notFound
  | nonFastForward
  | pushFailed (msg : String)
  | pushRejected (msg : String)
  | pullDivergent (msg : String)
  | pullFailed (msg : String)
deriving DecidableEq, Repr

/-- Model of `if dest_path.exists(): shutil.rmtree(dest_path)` followed by
`shutil.copytree(source_path, dest_path)`:
replace the entry for `name` in the managed root with tree `t`
(removing any existing entry for `name` first). -/
def setSubtree : ManagedRoot → String → FileTree → ManagedRoot
  | [], name, t => [(name, t)]
  | e :: rest, name, t =>
    if e.1 = name then setSubtree rest name t
    else e :: setSubtree rest name t

/-- The loop body of `GitManager.sync_files` (git_ops.py lines 163-181):
process each source path in order; skip nonexistent ones; for existing
ones fully replace the destination subtree and record every regular file
copied, as path segments relative to the repository root
(`subdir :: leaf name :: relative path`). -/
def syncLoop (subdir : String) : List SourceDir → ManagedRoot →
    ManagedRoot × List (List String)
  | [], root => (root, [])
  | s :: rest, root =>
    match s.tree with
    | none => syncLoop subdir rest root
    | some t =>
      let root1 := setSubtree root s.name t
      let next := syncLoop subdir rest root1
      (next.1, t.map (fun f => subdir :: s.name :: f.1) ++ next.2)

/-- Model of `GitManager.sync_files` (git_ops.py lines 145-182): requires an opened
repository; creates the managed subtree root (`mkdir(parents=True,
exist_ok=True)`); then runs the copy loop.  Returns the updated repository
working tree and the list of copied files relative to the repository root. -/
def sync_files (initialized : Bool) (subdir : String)
    (sources : List SourceDir) (fs : RepoFS) :
    Except GitError (RepoFS × List (List String)) :=
  if initialized then
    let r := syncLoop subdir sources fs.profiles
    .ok (⟨true, r.1⟩, r.2)
  else .error .notInitialized

/-- The loop body of `GitManager.restore_files` (git_ops.py lines 203-223):
for each target directory look up the subtree named after the target's own
leaf name; skip when absent; otherwise fully replace the target directory
and record every regular file restored (modelled as
`leaf name :: relative path`, abstracting the absolute prefix). -/
def restoreLoop : List DestDir → ManagedRoot →
    List (String × Option FileTree) × List (List String)
  | [], _ => ([], [])
  | d :: rest, root =>
    let next := restoreLoop rest root
    match root.lookup d.name with
    | none => ((d.name, d.existing) :: next.1, next.2)
    | some t =>
      ((d.name, some t) :: next.1, t.map (fun f => d.name :: f.1) ++ next.2)

/-- Model of `GitManager.restore_files` (git_ops.py lines 184-225): requires an opened
repository; returns `[]` without touching any target when the managed
subtree root does not exist; otherwise runs the restore loop.  Returns the
final state of each target directory and the restored file list. -/
def restore_files (initialized : Bool) (targets : List DestDir) (fs : RepoFS) :
    Except GitError (List (String × Option FileTree) × List (List String)) :=
  if initialized then
    if fs.profilesExists then .ok (restoreLoop targets fs.profiles)
    else .ok (targets.map (fun d => (d.name, d.existing)), [])
  else .error .notInitialized

/-- Leaf names of the source directories that exist (those not skipped by
the sync loop). -/
def existingNames (sources : List SourceDir) : List String :=
  sources.filterMap (fun s => s.tree.map (fun _ => s.name))

/-- Backend operations the commit routine issues
(`self.repo.git.add(A=True)` and `self.repo.index.commit(message)`). -/
inductive GitOp where
  | addAll
  | commitMsg (msg : String)
deriving DecidableEq, Repr

/-- The auto-generated commit message of git_ops.py lines 247-250. -/
def defaultMessage (hostname timestamp : String) : String :=
  "Sync from " ++ hostname ++ " - " ++ timestamp

/-- Model of `GitManager.commit_changes` (git_ops.py lines 227-254).  Inputs beyond
the supplied message are the backend observations the code makes after the
unconditional `git add -A`: whether `is_dirty()` holds and whether
`untracked_files` is non-empty, plus `platform.node()` and the formatted
`datetime.now()`.  Returns the trace of issued backend operations together
with the boolean result.  Python's `if not message:` treats `None` and the
empty string alike. -/
def commit_changes (initialized dirty untracked : Bool)
    (hostname timestamp : String) (message : Option String) :
    Except GitError (List GitOp × Bool) :=
  if initialized then
    if !dirty && !untracked then .ok ([.addAll], false)
    else
      let msg := match message with
        | none => defaultMessage hostname timestamp
        | some m => if m = "" then defaultMessage hostname timestamp else m
      .ok ([.addAll, .commitMsg msg], true)
  else .error .notInitialized

/-- The push command issued to the backend: either a set-upstream push with
an explicit refspec, or a plain push of the branch name. -/
inductive PushCmd where
  | setUpstream (refspec : String)
  | plain (branch : String)
deriving DecidableEq, Repr

/-- The authentication-failure phrases of git_ops.py lines 303-315. -/
def authPhrases : List String :=
  ["authentication failed",
   "could not read username",
   "could not read password",
   "permission denied",
   "authentication error",
   "invalid credentials",
   "access denied",
   "terminal prompts disabled",
   "no credentials",
   "403",
   "401"]

/-- Model of the `except git.GitCommandError` handler of `GitManager.push`
(git_ops.py lines 300-329): lowercase the failure message and classify it
by substring matching, in this priority order: authentication phrases,
then repository-not-found, then non-fast-forward, then a generic push
failure carrying the raw message. -/
def classify_push_error (msg : String) : GitError :=
  let m := pyLower msg
  if authPhrases.any (fun p => containsSubstr m p) then .authFailed
  else if containsSubstr m "repository not found" || containsSubstr m "404" then
    .notFound
  else if containsSubstr m "non-fast-forward" then .nonFastForward
  else .pushFailed msg

/-- Environment for `GitManager.push`: the repository/remote/tracking state
the code inspects, and oracles for the backend outcome — `cmdError` is the
message of the `git.GitCommandError` the push command raises (`none` when
the command returns), and `flagError` is the summary of the first returned
push status carrying an error/rejected flag (`none` when all statuses are
clean). -/
structure PushEnv where
  initialized : Bool
  hasOrigin : Bool
  hasTracking : Bool
  branchName : String
  cmdError : Option String
  flagError : Option String
deriving DecidableEq, Repr

/-- Model of `GitManager.push` (git_ops.py lines 256-329): requires an opened
repository and a configured `origin` remote; issues a set-upstream push
with refspec `branch:branch` when the active branch has no tracking
branch, a plain push of the branch name otherwise; classifies backend
command failures; checks the returned push statuses for error flags.
Returns the trace of issued push commands and the outcome. -/
def push (env : PushEnv) : List PushCmd × Except GitError Unit :=
  if !env.initialized then ([], .error .notInitialized)
  else if !env.hasOrigin then ([], .error .noRemote)
  else
    let cmd := if env.hasTracking then PushCmd.plain env.branchName
      else PushCmd.setUpstream (env.branchName ++ ":" ++ env.branchName)
    match env.cmdError with
    | some msg => ([cmd], .error (classify_push_error msg))
    | none =>
      match env.flagError with
      | some s => ([cmd], .error (.pushRejected s))
      | none => ([cmd], .ok ())

/-- The divergence test of git_ops.py line 354 on the lowercased failure
message. -/
def isDivergenceMsg (msg : String) : Bool :=
  let m := pyLower msg
  containsSubstr m "divergent branches" ||
    containsSubstr m "need to specify how to reconcile"

/-- Environment for `GitManager.pull`: repository/remote state, oracles for
the backend outcomes (`rebaseError` / `mergeError` are the messages of the
`git.GitCommandError` raised by the rebase-style and merge-style pull
attempts, `none` meaning success), the commit at `HEAD` before and after a
successful pull, and the relative paths reported by diffing the two. -/
structure PullEnv where
  initialized : Bool
  hasOrigin : Bool
  rebaseError : Option String
  mergeError : Option String
  oldHead : Nat
  newHead : Nat
  diffPaths : List String
deriving DecidableEq, Repr

/-- Model of `GitManager.pull` (git_ops.py lines 331-375): requires an opened
repository and a configured `origin` remote; records the old `HEAD`;
attempts a rebase-style pull; on a failure whose message indicates
divergent branches retries once with a merge-style pull (raising a
divergent-history error if that also fails); any other failure raises a
generic pull error.  After a successful pull, returns `(false, [])` when
`HEAD` is unchanged and `(true, diff old new)` otherwise. -/
def pull (env : PullEnv) : Except GitError (Bool × List String) :=
  if !env.initialized then .error .notInitialized
  else if !env.hasOrigin then .error .noRemote
  else
    let success : Except GitError (Bool × List String) :=
      if env.oldHead = env.newHead then .ok (false, [])
      else .ok (true, env.diffPaths)
    match env.rebaseError with
    | none => success
    | some msg =>
      if isDivergenceMsg msg then
        match env.mergeError with
        | none => success
        | some msg2 => .error (.pullDivergent msg2)
      else .error (.pullFailed msg)

/-- How `init_repository` obtained its repository handle. -/
inductive InitOutcome where
  | opened
  | cloned
  | freshInit
deriving DecidableEq, Repr

/-- Environment for `GitManager.init_repository`: whether the local path
exists, whether it holds a valid repository (meaningful only when it
exists — opening an invalid one raises `git.InvalidGitRepositoryError`),
the configured remote URL (`""` models a falsy/absent URL), and an oracle
for whether `Repo.clone_from` succeeds. -/
structure InitEnv where
  pathExists : Bool
  validRepo : Bool
  repoUrl : String
  cloneSucceeds : Bool
deriving DecidableEq, Repr

/-- Model of `GitManager.init_repository` (git_ops.py lines 59-112): if the path
exists and holds a valid repository, open it; if it exists but is invalid,
`shutil.rmtree` the path and fall through; then, when a remote URL is
configured, clone (raising a clone failure on backend error), and
otherwise initialize a fresh repository with a bootstrap commit. -/
def init_repository (env : InitEnv) : Except GitError InitOutcome :=
  if env.pathExists && env.validRepo then .ok .opened
  else if env.repoUrl ≠ "" then
    if env.cloneSucceeds then .ok .cloned
    else .error (.cloneFailed env.repoUrl)
  else .ok .freshInit

-- Basic lemmas about the managed-root update.

theorem lookup_setSubtree (root : ManagedRoot) (name k : String) (t : FileTree) :
    (setSubtree root name t).lookup k =
      if k = name then some t else root.lookup k := by
  induction root with
  | nil =>
    by_cases h : k = name
    · subst h; simp [setSubtree, List.lookup]
    · have hb : (k == name) = false := beq_eq_false_iff_ne.mpr h
      simp [setSubtree, List.lookup, hb, h]
  | cons e rest ih =>
    by_cases he : e.1 = name
    · by_cases h : k = name
      · subst h; simp [setSubtree, he, ih]
      · have hke : ¬ k = e.1 := fun hh => h (hh.trans he)
        have hb : (k == e.1) = false := beq_eq_false_iff_ne.mpr hke
        have hbn : (k == name) = false := beq_eq_false_iff_ne.mpr h
        simp [setSubtree, he, List.lookup, hb, hbn, ih, h]
    · by_cases hk : k = e.1
      · have hkn : ¬ k = name := fun hh => he (hk.symm.trans hh)
        have hb : (k == e.1) = true := beq_iff_eq.mpr hk
        simp [setSubtree, he, List.lookup, hb, hkn]
      · have hb : (k == e.1) = false := beq_eq_false_iff_ne.mpr hk
        simp [setSubtree, he, List.lookup, hb, ih]

theorem syncLoop_lookup_not_mem (subdir : String) (sources : List SourceDir)
    (root : ManagedRoot) (k : String) (h : k ∉ existingNames sources) :
    (syncLoop subdir sources root).1.lookup k = root.lookup k := by
  induction sources generalizing root with
  | nil => rfl
  | cons s rest ih =>
    match hs : s.tree with
    | none =>
      have hrest : k ∉ existingNames rest := by
        simpa [existingNames, hs] using h
      simpa [syncLoop, hs] using ih (h := hrest) root
    | some t =>
      have h1 : ¬ k = s.name ∧ k ∉ existingNames rest := by
        have h2 := h
        simp [existingNames, hs] at h2
        exact ⟨h2.1, by simpa [existingNames] using h2.2⟩
      calc (syncLoop subdir (s :: rest) root).1.lookup k
          = (setSubtree root s.name t).lookup k := by
            simpa [syncLoop, hs] using ih (h := h1.2) (setSubtree root s.name t)
        _ = root.lookup k := by simp [lookup_setSubtree, h1.1]

theorem syncLoop_copied (subdir : String) (sources : List SourceDir)
    (root : ManagedRoot) :
    (syncLoop subdir sources root).2 =
      (sources.filterMap (fun s =>
        s.tree.map (fun t => t.map (fun f => subdir :: s.name :: f.1)))).flatten := by
  induction sources generalizing root with
  | nil => rfl
  | cons s rest ih =>
    match hs : s.tree with
    | none => simp [syncLoop, hs, ih]
    | some t => simp [syncLoop, hs, ih]

theorem syncLoop_lookup_mem (subdir : String) (sources : List SourceDir)
    (root : ManagedRoot) (hnodup : (existingNames sources).Nodup)
    (s : SourceDir) (hmem : s ∈ sources) (t : FileTree)
    (ht : s.tree = some t) :
    (syncLoop subdir sources root).1.lookup s.name = some t := by
  induction sources generalizing root with
  | nil => cases hmem
  | cons x rest ih =>
    match hx : x.tree with
    | none =>
      have hnd : (existingNames rest).Nodup := by
        simpa [existingNames, hx] using hnodup
      rcases List.mem_cons.mp hmem with hsx | hsr
      · rw [hsx] at ht
        rw [hx] at ht
        cases ht
      · simpa [syncLoop, hx] using ih root hnd hsr
    | some tx =>
      have hnd2 : ((x.name :: existingNames rest)).Nodup := by
        simpa [existingNames, hx] using hnodup
      rcases List.mem_cons.mp hmem with hsx | hsr
      · subst hsx
        have htx : tx = t := by rw [hx] at ht; cases ht; rfl
        subst htx
        have hnot : s.name ∉ existingNames rest :=
          (List.nodup_cons.mp hnd2).1
        calc (syncLoop subdir (s :: rest) root).1.lookup s.name
            = (setSubtree root s.name tx).lookup s.name := by
              simpa [syncLoop, hx] using
                syncLoop_lookup_not_mem subdir rest
                  (setSubtree root s.name tx) s.name hnot
          _ = some tx := by simp [lookup_setSubtree]
      · simpa [syncLoop, hx] using
          ih (setSubtree root x.name tx) (List.nodup_cons.mp hnd2).2 hsr

theorem syncLoop_skip_nonexistent (subdir : String)
    (pre post : List SourceDir) (s : SourceDir) (root : ManagedRoot)
    (hne : s.tree = none) :
    syncLoop subdir (pre ++ s :: post) root =
      syncLoop subdir (pre ++ post) root := by
  induction pre generalizing root with
  | nil => simp [syncLoop, hne]
  | cons p rest ih =>
    match hp : p.tree with
    | none => simp [syncLoop, hp, ih]
    | some tp => simp [syncLoop, hp, ih]

-- Claim C9 --------------------------------------------------------------

/-- C9 counterexample: with a path that exists but holds no valid
repository AND a configured remote URL whose clone succeeds, `open` does
not surface a fatal error — it recovers by removing the path and cloning,
returning a repository handle.  This refutes the claim that the failure is
fatal whenever a remote URL is configured. -/
theorem c9_counterexample :
    init_repository ⟨true, false, "https://example.com/repo.git", true⟩ =
      .ok .cloned := rfl

/-- C9 (amended): when `open` is invoked on a path that exists but does not
contain a valid repository, the invalid-repository condition is always
recovered by deleting the path and re-creating: when no remote URL is
configured the repository is re-initialized; when a remote URL is
configured a clone is attempted, and only a failure of that clone is
surfaced to the caller (as a clone error, not the invalid-repository
error). -/
theorem c9_invalid_repository_recovery (env : InitEnv)
    (_hex : env.pathExists = true) (hinv : env.validRepo = false) :
    (env.repoUrl = "" → init_repository env = .ok .freshInit) ∧
    (env.repoUrl ≠ "" →
      init_repository env =
        if env.cloneSucceeds then .ok .cloned
        else .error (.cloneFailed env.repoUrl)) := by
  constructor
  · intro hu
    simp [init_repository, hinv, hu]
  · intro hu
    simp [init_repository, hinv, hu]

/-- Witness for C9's amended theorem at a concrete environment. -/
theorem c9_invalid_repository_recovery_witness :
    init_repository ⟨true, false, "", true⟩ = .ok .freshInit :=
  (c9_invalid_repository_recovery ⟨true, false, "", true⟩ rfl rfl).1 rfl

-- Claim C5 --------------------------------------------------------------

/-- C5: for every push on an opened repository, if no remote is configured
the operation fails with a no-remote error (and issues no push command);
otherwise, if the active branch has no tracking branch the push issued is
a set-upstream push with the explicit refspec `branch:branch`, and if it
has a tracking branch the push issued is a plain push of the branch
name. -/
theorem c5_push_upstream_semantics (env : PushEnv)
    (hinit : env.initialized = true) :
    (env.hasOrigin = false → push env = ([], .error .noRemote)) ∧
    (env.hasOrigin = true → env.hasTracking = false →
      (push env).1 =
        [.setUpstream (env.branchName ++ ":" ++ env.branchName)]) ∧
    (env.hasOrigin = true → env.hasTracking = true →
      (push env).1 = [.plain env.branchName]) := by
  refine ⟨fun ho => ?_, fun ho ht => ?_, fun ho ht => ?_⟩
  · simp [push, hinit, ho]
  · cases hc : env.cmdError <;> cases hf : env.flagError <;>
      simp [push, hinit, ho, ht, hc, hf]
  · cases hc : env.cmdError <;> cases hf : env.flagError <;>
      simp [push, hinit, ho, ht, hc, hf]

/-- Witness for C5 at concrete environments: the no-remote error, the
first-push refspec, and the plain push. -/
theorem c5_push_upstream_semantics_witness :
    push ⟨true, false, false, "machine-a", none, none⟩ =
      ([], .error .noRemote) ∧
    (push ⟨true, true, false, "machine-a", none, none⟩).1 =
      [.setUpstream "machine-a:machine-a"] ∧
    (push ⟨true, true, true, "machine-a", none, none⟩).1 =
      [.plain "machine-a"] :=
  ⟨(c5_push_upstream_semantics ⟨true, false, false, "machine-a", none, none⟩
      rfl).1 rfl,
   (c5_push_upstream_semantics ⟨true, true, false, "machine-a", none, none⟩
      rfl).2.1 rfl rfl,
   (c5_push_upstream_semantics ⟨true, true, true, "machine-a", none, none⟩
      rfl).2.2 rfl rfl⟩

-- Claim C6 --------------------------------------------------------------

/-- C6: every commit invocation on an opened repository stages all changes
first (the trace starts with `addAll`); when the tree is then neither
dirty nor has untracked files it returns `false` and issues no commit;
otherwise it returns `true`, and when no message is supplied the commit
message is the generated `Sync from {hostname} - {timestamp}` embedding
the machine hostname and local timestamp. -/
theorem c6_commit_contract (dirty untracked : Bool)
    (hostname timestamp : String) (message : Option String)
    (tr : List GitOp) (res : Bool)
    (hrun : commit_changes true dirty untracked hostname timestamp message =
      .ok (tr, res)) :
    tr.head? = some .addAll ∧
    (dirty = false ∧ untracked = false → res = false ∧ tr = [.addAll]) ∧
    ((dirty = true ∨ untracked = true) → res = true) ∧
    ((dirty = true ∨ untracked = true) → message = none →
      tr = [.addAll, .commitMsg (defaultMessage hostname timestamp)]) ∧
    defaultMessage hostname timestamp =
      "Sync from " ++ hostname ++ " - " ++ timestamp := by
  cases dirty <;> cases untracked <;> cases message <;>
    simp [commit_changes] at hrun <;>
      obtain ⟨h1, h2⟩ := hrun <;> subst h1 <;> subst h2 <;>
        simp_all [defaultMessage]

/-- Witness for C6: a dirty tree with no supplied message commits with the
generated hostname-and-timestamp message. -/
theorem c6_commit_contract_witness :
    List.head? [GitOp.addAll,
        GitOp.commitMsg (defaultMessage "machine-a" "2025-01-02 03:04:05")] =
      some GitOp.addAll ∧
    (true = false ∧ false = false →
      true = false ∧
      [GitOp.addAll,
       GitOp.commitMsg (defaultMessage "machine-a" "2025-01-02 03:04:05")] =
        [GitOp.addAll]) ∧
    ((true = true ∨ false = true) → true = true) ∧
    ((true = true ∨ false = true) → (none : Option String) = none →
      [GitOp.addAll,
       GitOp.commitMsg (defaultMessage "machine-a" "2025-01-02 03:04:05")] =
        [GitOp.addAll,
         GitOp.commitMsg (defaultMessage "machine-a" "2025-01-02 03:04:05")]) ∧
    defaultMessage "machine-a" "2025-01-02 03:04:05" =
      "Sync from " ++ "machine-a" ++ " - " ++ "2025-01-02 03:04:05" :=
  c6_commit_contract true false "machine-a" "2025-01-02 03:04:05" none
    [GitOp.addAll,
     GitOp.commitMsg (defaultMessage "machine-a" "2025-01-02 03:04:05")]
    true rfl

-- Claim C3 --------------------------------------------------------------

/-- C3: pull on an opened repository with a configured remote first
attempts a rebase-style pull; a rebase success needs no retry; a rebase
failure whose message indicates divergent branches triggers exactly one
merge-style retry whose own failure raises the divergent-history error
(the operation never silently succeeds there); a rebase failure whose
message does not indicate divergence raises a generic pull error with no
retry (the outcome is independent of what the merge attempt would have
done). -/
theorem c3_pull_divergence_state_machine (env : PullEnv)
    (hinit : env.initialized = true) (horig : env.hasOrigin = true) :
    (env.rebaseError = none → ∃ v, pull env = .ok v) ∧
    (∀ msg, env.rebaseError = some msg → isDivergenceMsg msg = true →
      pull env =
        match env.mergeError with
        | none => pull { env with rebaseError := none }
        | some msg2 => .error (.pullDivergent msg2)) ∧
    (∀ msg, env.rebaseError = some msg → isDivergenceMsg msg = false →
      ∀ m2, pull { env with mergeError := m2 } =
        .error (.pullFailed msg)) := by
  refine ⟨fun hre => ?_, fun msg hre hdiv => ?_, fun msg hre hdiv m2 => ?_⟩
  · by_cases hh : env.oldHead = env.newHead
    · exact ⟨(false, []), by simp [pull, hinit, horig, hre, hh]⟩
    · exact ⟨(true, env.diffPaths), by simp [pull, hinit, horig, hre, hh]⟩
  · cases hm : env.mergeError <;>
      simp [pull, hinit, horig, hre, hm, hdiv]
  · simp [pull, hinit, horig, hre, hdiv]

/-- Witness for C3 at concrete environments: a clean rebase pull succeeds;
a divergent rebase failure followed by a merge failure yields the
divergent-history error; a non-divergent rebase failure yields the
generic pull error. -/
theorem c3_pull_divergence_state_machine_witness :
    (∃ v, pull ⟨true, true, none, none, 5, 5, []⟩ = .ok v) ∧
    pull ⟨true, true,
        some "fatal: Need to specify how to reconcile divergent branches.",
        some "merge conflict", 5, 7, ["a"]⟩ =
      .error (.pullDivergent "merge conflict") ∧
    pull ⟨true, true, some "fatal: unable to access remote", some "unused",
        5, 7, ["a"]⟩ =
      .error (.pullFailed "fatal: unable to access remote") :=
  ⟨(c3_pull_divergence_state_machine ⟨true, true, none, none, 5, 5, []⟩
      rfl rfl).1 rfl,
   (c3_pull_divergence_state_machine ⟨true, true,
      some "fatal: Need to specify how to reconcile divergent branches.",
      some "merge conflict", 5, 7, ["a"]⟩ rfl rfl).2.1
      "fatal: Need to specify how to reconcile divergent branches."
      rfl (by decide),
   (c3_pull_divergence_state_machine ⟨true, true,
      some "fatal: unable to access remote", some "unused", 5, 7, ["a"]⟩
      rfl rfl).2.2 "fatal: unable to access remote" rfl (by decide)
      (some "unused")⟩

-- Claim C4 --------------------------------------------------------------

/-- C4: for every successful pull (the rebase attempt succeeded, or a
divergence-indicating rebase failure was followed by a successful merge
retry), the result is `(false, [])` when the new `HEAD` equals the `HEAD`
recorded before pulling, and otherwise `(true, paths)` where `paths` is
exactly the changed-path list produced by diffing the old `HEAD` against
the new one. -/
theorem c4_pull_change_reporting (env : PullEnv)
    (hinit : env.initialized = true) (horig : env.hasOrigin = true)
    (hsuccess : env.rebaseError = none ∨
      (∃ msg, env.rebaseError = some msg ∧ isDivergenceMsg msg = true ∧
        env.mergeError = none)) :
    pull env =
      if env.oldHead = env.newHead then .ok (false, [])
      else .ok (true, env.diffPaths) := by
  rcases hsuccess with hre | ⟨msg, hre, hdiv, hm⟩
  · simp [pull, hinit, horig, hre]
  · simp [pull, hinit, horig, hre, hdiv, hm]

/-- Witness for C4: an unchanged `HEAD` reports `(false, [])`, and a pull
that advances `HEAD` reports `(true, diff)`. -/
theorem c4_pull_change_reporting_witness :
    pull ⟨true, true, none, none, 5, 5, ["x"]⟩ = .ok (false, []) ∧
    pull ⟨true, true, none, none, 5, 7, ["a", "b"]⟩ =
      .ok (true, ["a", "b"]) :=
  ⟨by
    have h := c4_pull_change_reporting ⟨true, true, none, none, 5, 5, ["x"]⟩
      rfl rfl (Or.inl rfl)
    simpa using h,
   by
    have h := c4_pull_change_reporting
      ⟨true, true, none, none, 5, 7, ["a", "b"]⟩ rfl rfl (Or.inl rfl)
    simpa using h⟩

-- Claim C7 --------------------------------------------------------------

/-- C7: every backend command failure during push is classified by
case-insensitive substring matching on the failure message, in priority
order: any authentication-related phrase yields the authentication error;
otherwise `repository not found` or `404` yields the not-found error;
otherwise `non-fast-forward` yields the non-fast-forward error; any other
message yields the generic push failure.  The push outcome is the
classification of the raised message. -/
theorem c7_push_error_classification (env : PushEnv) (msg : String)
    (hinit : env.initialized = true) (horig : env.hasOrigin = true)
    (herr : env.cmdError = some msg) :
    (push env).2 = .error (classify_push_error msg) ∧
    (authPhrases.any (fun p => containsSubstr (pyLower msg) p) = true →
      classify_push_error msg = .authFailed) ∧
    (authPhrases.any (fun p => containsSubstr (pyLower msg) p) = false →
      (containsSubstr (pyLower msg) "repository not found" ||
        containsSubstr (pyLower msg) "404") = true →
      classify_push_error msg = .notFound) ∧
    (authPhrases.any (fun p => containsSubstr (pyLower msg) p) = false →
      (containsSubstr (pyLower msg) "repository not found" ||
        containsSubstr (pyLower msg) "404") = false →
      containsSubstr (pyLower msg) "non-fast-forward" = true →
      classify_push_error msg = .nonFastForward) ∧
    (authPhrases.any (fun p => containsSubstr (pyLower msg) p) = false →
      (containsSubstr (pyLower msg) "repository not found" ||
        containsSubstr (pyLower msg) "404") = false →
      containsSubstr (pyLower msg) "non-fast-forward" = false →
      classify_push_error msg = .pushFailed msg) := by
  refine ⟨?_, fun h1 => ?_, fun h1 h2 => ?_, fun h1 h2 h3 => ?_,
    fun h1 h2 h3 => ?_⟩
  · simp [push, hinit, horig, herr]
  · simp [classify_push_error, h1]
  · simp [classify_push_error, h1, h2]
  · simp [classify_push_error, h1, h2, h3]
  · simp [classify_push_error, h1, h2, h3]

/-- Witness for C7: a mixed-case authentication message, a not-found
message, a non-fast-forward rejection and an unrecognized message, each
classified through `push`. -/
theorem c7_push_error_classification_witness :
    (push ⟨true, true, true, "m",
        some "remote: Permission DENIED to user", none⟩).2 =
      .error .authFailed ∧
    (push ⟨true, true, true, "m",
        some "remote: Repository NOT Found.", none⟩).2 =
      .error .notFound ∧
    (push ⟨true, true, true, "m",
        some "! [rejected] main -> main (non-fast-forward)", none⟩).2 =
      .error .nonFastForward ∧
    (push ⟨true, true, true, "m", some "ssh: connect refused", none⟩).2 =
      .error (.pushFailed "ssh: connect refused") := by
  refine ⟨?_, ?_, ?_, ?_⟩
  · have h := c7_push_error_classification
      ⟨true, true, true, "m", some "remote: Permission DENIED to user",
        none⟩ "remote: Permission DENIED to user" rfl rfl rfl
    rw [h.1, h.2.1 (by decide)]
  · have h := c7_push_error_classification
      ⟨true, true, true, "m", some "remote: Repository NOT Found.", none⟩
      "remote: Repository NOT Found." rfl rfl rfl
    rw [h.1, h.2.2.1 (by decide) (by decide)]
  · have h := c7_push_error_classification
      ⟨true, true, true, "m",
        some "! [rejected] main -> main (non-fast-forward)", none⟩
      "! [rejected] main -> main (non-fast-forward)" rfl rfl rfl
    rw [h.1, h.2.2.2.1 (by decide) (by decide) (by decide)]
  · have h := c7_push_error_classification
      ⟨true, true, true, "m", some "ssh: connect refused", none⟩
      "ssh: connect refused" rfl rfl rfl
    rw [h.1, h.2.2.2.2 (by decide) (by decide) (by decide)]

-- Claim C10 -------------------------------------------------------------

/-- C10: supplying the empty string as the commit message is treated
exactly like omitting the message — the whole operation behaves
identically, the commit created (when there is something to commit) uses
the generated default message, and that default is never the empty
string. -/
theorem c10_empty_message_default (dirty untracked : Bool)
    (hostname timestamp : String) :
    commit_changes true dirty untracked hostname timestamp (some "") =
      commit_changes true dirty untracked hostname timestamp none ∧
    ((dirty = true ∨ untracked = true) →
      commit_changes true dirty untracked hostname timestamp (some "") =
        .ok ([.addAll, .commitMsg (defaultMessage hostname timestamp)],
          true)) ∧
    defaultMessage hostname timestamp ≠ "" := by
  refine ⟨rfl, fun hd => ?_, fun hh => ?_⟩
  · cases dirty <;> cases untracked <;> simp_all [commit_changes]
  · have h2 : (defaultMessage hostname timestamp).length =
        ("" : String).length := by rw [hh]
    simp [defaultMessage, String.length_append] at h2
    exact absurd h2.1.1.1 (by decide)

/-- Witness for C10: with a dirty tree, the empty-string message produces
the generated default commit message. -/
theorem c10_empty_message_default_witness :
    commit_changes true true false "machine-a" "2025-01-02 03:04:05"
        (some "") =
      .ok ([.addAll,
        .commitMsg (defaultMessage "machine-a" "2025-01-02 03:04:05")],
        true) :=
  (c10_empty_message_default true false "machine-a"
    "2025-01-02 03:04:05").2.1 (Or.inl rfl)

-- Claim C1 --------------------------------------------------------------

/-- C1: round-trip synchronization — for every file tree `t` pushed from an
external source directory with leaf name `name` into the managed root, a
subsequent `restore_files` on the resulting repository content to any
destination directory with the same leaf name fully restores the tree:
the destination ends up exactly equal to the pushed tree (so every
relative file path of the pushed tree exists there with identical
content), and every file is reported restored. -/
theorem c1_push_pull_round_trip (fs fs2 : RepoFS) (subdir name : String)
    (t : FileTree) (dest : Option FileTree) (copied : List (List String))
    (hpush : sync_files true subdir [⟨name, some t⟩] fs = .ok (fs2, copied)) :
    restore_files true [⟨name, dest⟩] fs2 =
      .ok ([(name, some t)], t.map (fun f => name :: f.1)) := by
  simp [sync_files, syncLoop] at hpush
  obtain ⟨h1, h2⟩ := hpush
  subst h1
  simp [restore_files, restoreLoop, lookup_setSubtree]

/-- Witness for C1: the spec's scenario — `filament/PLA.json` pushed under
source leaf `user` is restored intact to a destination with leaf `user`
that did not previously exist. -/
theorem c1_push_pull_round_trip_witness :
    restore_files true [⟨"user", none⟩]
        ⟨true, [("user", [(["filament", "PLA.json"], "pla-profile")])]⟩ =
      .ok ([("user", some [(["filament", "PLA.json"], "pla-profile")])],
        [["user", "filament", "PLA.json"]]) :=
  c1_push_pull_round_trip ⟨false, []⟩
    ⟨true, [("user", [(["filament", "PLA.json"], "pla-profile")])]⟩
    "profiles" "user" [(["filament", "PLA.json"], "pla-profile")] none
    [["profiles", "user", "filament", "PLA.json"]] rfl

-- Claim C2 --------------------------------------------------------------

/-- C2 counterexample: two source directories in the same `sync_files` call
sharing the leaf name `user` collide — after the call the managed subtree
`user` holds only the second source's content, so the first existing
source directory's subtree is NOT an exact copy of that source, refuting
the claim as universally stated. -/
theorem c2_counterexample :
    sync_files true "profiles"
        [⟨"user", some [(["a.json"], "one")]⟩,
         ⟨"user", some [(["b.json"], "two")]⟩] ⟨false, []⟩ =
      .ok (⟨true, [("user", [(["b.json"], "two")])]⟩,
        [["profiles", "user", "a.json"], ["profiles", "user", "b.json"]]) ∧
    ([(["b.json"], "two")] : FileTree) ≠ [(["a.json"], "one")] := by
  exact ⟨rfl, by decide⟩

/-- C2 (amended): when the existing source directories' leaf names are
pairwise distinct (two sources sharing a leaf name map to the same
subtree, and the one processed last wins), `sync_files` deletes and
recreates each existing source's destination subtree as an exact copy of
that source — after the call, including a second call with a modified
source file set over any prior repository state, each subtree contains
exactly the current source content with no stale files — and the returned
list is exactly every regular file copied, as paths relative to the
repository root. -/
theorem c2_full_replace (subdir : String) (sources : List SourceDir)
    (fs fs2 : RepoFS) (copied : List (List String))
    (hnodup : (existingNames sources).Nodup)
    (hrun : sync_files true subdir sources fs = .ok (fs2, copied)) :
    fs2.profilesExists = true ∧
    (∀ s ∈ sources, ∀ t, s.tree = some t →
      fs2.profiles.lookup s.name = some t) ∧
    copied = (sources.filterMap (fun s =>
      s.tree.map (fun t =>
        t.map (fun f => subdir :: s.name :: f.1)))).flatten := by
  simp [sync_files] at hrun
  obtain ⟨h1, h2⟩ := hrun
  subst h1
  refine ⟨rfl, fun s hs t ht => ?_, ?_⟩
  · exact syncLoop_lookup_mem subdir sources fs.profiles hnodup s hs t ht
  · rw [← h2, syncLoop_copied]

/-- Witness for C2's amended theorem: a second sync over prior repository
state (a stale `user` subtree) with distinct-leaf sources `user` and
`printer` and a nonexistent `ghost`; both subtrees equal the new source
content and the copied list is exact. -/
theorem c2_full_replace_witness :
    (⟨true, [("user", [(["new.json"], "v2")]),
        ("printer", [(["p.cfg"], "cfg")])]⟩ : RepoFS).profiles.lookup
        "user" = some [(["new.json"], "v2")] ∧
    (⟨true, [("user", [(["new.json"], "v2")]),
        ("printer", [(["p.cfg"], "cfg")])]⟩ : RepoFS).profiles.lookup
        "printer" = some [(["p.cfg"], "cfg")] := by
  have h := c2_full_replace "profiles"
    [⟨"user", some [(["new.json"], "v2")]⟩,
     ⟨"printer", some [(["p.cfg"], "cfg")]⟩, ⟨"ghost", none⟩]
    ⟨true, [("user", [(["old.json"], "v1"), (["stale.json"], "gone")])]⟩
    ⟨true, [("user", [(["new.json"], "v2")]),
      ("printer", [(["p.cfg"], "cfg")])]⟩
    [["profiles", "user", "new.json"], ["profiles", "printer", "p.cfg"]]
    (by decide) rfl
  exact ⟨h.2.1 ⟨"user", some [(["new.json"], "v2")]⟩ (by simp)
      [(["new.json"], "v2")] rfl,
    h.2.1 ⟨"printer", some [(["p.cfg"], "cfg")]⟩ (by simp)
      [(["p.cfg"], "cfg")] rfl⟩

-- Claim C8 --------------------------------------------------------------

/-- C8: a source path that does not exist is a complete no-op for
`sync_files`: the call behaves exactly as if that source were absent from
the list (so no error is raised and it contributes no entries to the
returned copied-files list), and — whenever no other existing source in
the call shares its leaf name — the managed subtree for that leaf name is
left exactly as it was before the call. -/
theorem c8_nonexistent_source_noop (subdir : String)
    (pre post : List SourceDir) (s : SourceDir) (fs : RepoFS)
    (hne : s.tree = none) :
    sync_files true subdir (pre ++ s :: post) fs =
      sync_files true subdir (pre ++ post) fs ∧
    (s.name ∉ existingNames (pre ++ post) →
      ∀ fs2 copied,
        sync_files true subdir (pre ++ s :: post) fs = .ok (fs2, copied) →
        fs2.profiles.lookup s.name = fs.profiles.lookup s.name) := by
  have hskip := syncLoop_skip_nonexistent subdir pre post s fs.profiles hne
  constructor
  · simp [sync_files, hskip]
  · intro hnot fs2 copied hrun
    simp [sync_files, hskip] at hrun
    obtain ⟨h1, h2⟩ := hrun
    subst h1
    exact syncLoop_lookup_not_mem subdir (pre ++ post) fs.profiles
      s.name hnot

/-- Witness for C8: a nonexistent `user` source alongside an existing
`printer` source — the call equals the call without it, and the stale
`user` subtree content survives untouched. -/
theorem c8_nonexistent_source_noop_witness :
    sync_files true "profiles"
        [⟨"printer", some [(["p.cfg"], "cfg")]⟩, ⟨"user", none⟩]
        ⟨true, [("user", [(["old.json"], "v1")])]⟩ =
      sync_files true "profiles" [⟨"printer", some [(["p.cfg"], "cfg")]⟩]
        ⟨true, [("user", [(["old.json"], "v1")])]⟩ ∧
    (⟨true, [("user", [(["old.json"], "v1")]),
        ("printer", [(["p.cfg"], "cfg")])]⟩ : RepoFS).profiles.lookup
        "user" =
      (⟨true, [("user", [(["old.json"], "v1")])]⟩ : RepoFS).profiles.lookup
        "user" := by
  have h := c8_nonexistent_source_noop "profiles"
    [⟨"printer", some [(["p.cfg"], "cfg")]⟩] [] ⟨"user", none⟩
    ⟨true, [("user", [(["old.json"], "v1")])]⟩ rfl
  exact ⟨h.1, h.2 (by decide)
    ⟨true, [("user", [(["old.json"], "v1")]),
      ("printer", [(["p.cfg"], "cfg")])]⟩
    [["profiles", "printer", "p.cfg"]] rfl⟩

end OrcaSync
